import Mathlib

/-!
Shallow embedding of the OCPP-Power-Manager protocol engine
(`internal/ocpp/server.go` and the near-duplicate variant shipped in the
repository's `config`/`ocpp` sources), together with proofs about the
claims of its specification.

Modelling conventions:
* Go `time.Time` values are modelled as `Int` (the handlers only ever store
  `time.Now()` or a request timestamp; the clock instant is passed in as an
  explicit `now` argument).
* JSON values decoded by `encoding/json` into `interface{}` are modelled by
  the inductive `JVal`; Go type assertions (`x.(string)`, `x.(float64)`,
  `x.(map[string]interface{})`, ...) are the partial projections below.
* Go `float64` numbers are modelled as `ℚ`; `strconv.ParseFloat` is modelled
  by its result (an `Option ℚ`), and the Go conversion `int64(f)` is
  `int64of` (truncation toward zero).
* SQL statements are modelled by explicit pure updates of a `DB` record that
  mirrors the `chargers`, `transactions` and `meter_values` tables of the
  migrations.  `QueryRow` returns the first matching row.
* A Go runtime panic (nil-pointer dereference, index out of range) is a
  distinguished outcome, never silently dropped.
-/

namespace OCPPPM

/-- JSON values as decoded by `encoding/json` into `interface{}`. -/
inductive JVal where
  | jnum  (q : ℚ)
  | jstr  (s : String)
  | jbool (b : Bool)
  | jnull
  | jarr  (xs : List JVal)
  | jobj  (fields : List (String × JVal))
deriving Repr

/-- Go type assertion `x.(float64)`. -/
def JVal.asNum : JVal → Option ℚ
  | .jnum q => some q
  | _ => none

/-- Go type assertion `x.(string)`. -/
def JVal.asStr : JVal → Option String
  | .jstr s => some s
  | _ => none

/-- Go type assertion `x.(map[string]interface{})`. -/
def JVal.asObj : JVal → Option (List (String × JVal))
  | .jobj fs => some fs
  | _ => none

/-- Go type assertion `x.([]interface{})`. -/
def JVal.asArr : JVal → Option (List JVal)
  | .jarr xs => some xs
  | _ => none

/-- Lookup of a key in a decoded JSON object (Go map indexing). -/
def jget (fields : List (String × JVal)) (key : String) : Option JVal :=
  (fields.find? (fun p => p.1 = key)).map Prod.snd

/-- Embeds `m["k"].(string)` with Go's zero-value default for a missing key or a
failed assertion (`v, _ := m["k"].(string)`). -/
def jgetStr (fields : List (String × JVal)) (key : String) : String :=
  ((jget fields key).bind JVal.asStr).getD ""

/-- Embeds `v, _ := m["k"].(float64)` with Go's zero-value default. -/
def jgetNum (fields : List (String × JVal)) (key : String) : ℚ :=
  ((jget fields key).bind JVal.asNum).getD 0

/-- Go conversion `int64(f)` / `int(f)` on a float64: truncation toward zero. -/
def int64of (v : ℚ) : Int :=
  if 0 ≤ v then ⌊v⌋ else ⌈v⌉

/-- Embeds `time.Time.Format(time.RFC3339)`, modelled as an injective rendering of
the model clock value. -/
def timeStr (t : Int) : String := toString t

/-- A row of the `chargers` table. -/
structure Charger where
  id : Int
  identity : String
  name : String
  model : String
  vendor : String
  firmware : String
  lastSeen : Int
  totalEnergyWh : Option Int
deriving Repr, DecidableEq

/-- A row of the `transactions` table (migration `002_create_transactions`):
`stop_ts`, `stop_meter_wh` and `energy_wh` are nullable.  The table has no
UNIQUE constraint on `tx_id`. -/
structure Transaction where
  id : Int
  chargerId : Int
  txId : Int
  startTs : Int
  startMeterWh : Int
  stopTs : Option Int
  stopMeterWh : Option Int
  energyWh : Option Int
deriving Repr, DecidableEq

/-- A row of the `meter_values` table. -/
structure MeterRow where
  transactionId : Int
  ts : Int
  measurand : String
  value : ℚ
deriving Repr, DecidableEq

/-- The persistent store, mirroring the three tables plus the SQLite
AUTOINCREMENT counters. -/
structure DB where
  chargers : List Charger
  transactions : List Transaction
  meterValues : List MeterRow
  nextChargerId : Int
  nextTxRowId : Int
deriving Repr, DecidableEq

/-- Embeds `SELECT id FROM chargers WHERE identity = ?` (first row wins). -/
def findCharger (db : DB) (identity : String) : Option Charger :=
  db.chargers.find? (fun c => c.identity = identity)

/-- Embeds `SELECT id FROM transactions WHERE tx_id = ?` (first row wins). -/
def findTransaction (db : DB) (txId : Int) : Option Transaction :=
  db.transactions.find? (fun t => t.txId = txId)

/-! ### Typed request/confirmation shapes (the `ocpp-go` `core` structs) -/

/-- Embeds `core.BootNotificationRequest` (the fields the handler reads). -/
structure BootNotificationRequest where
  chargePointModel : String
  chargePointVendor : String
  firmwareVersion : String
deriving Repr, DecidableEq

/-- Embeds `core.RegistrationStatus`. -/
inductive RegistrationStatus where
  | accepted
  | rejected
deriving Repr, DecidableEq

/-- Embeds `core.BootNotificationConfirmation`. -/
structure BootNotificationConfirmation where
  status : RegistrationStatus
  currentTime : Int
  interval : Int
deriving Repr, DecidableEq

/-- Embeds `types.AuthorizationStatus` (the two values the engine produces). -/
inductive AuthorizationStatus where
  | accepted
  | invalid
deriving Repr, DecidableEq

/-- Embeds `core.StartTransactionRequest` (fields read by the handler). -/
structure StartTransactionRequest where
  idTag : String
  meterStart : Int
  timestamp : Int
deriving Repr, DecidableEq

/-- Embeds `core.StartTransactionConfirmation`: `TransactionId` is the Go zero
value `0` when the handler rejects without generating an identifier. -/
structure StartTransactionConfirmation where
  transactionId : Int
  status : AuthorizationStatus
deriving Repr, DecidableEq

/-- Embeds `core.StopTransactionRequest` (fields read by the handler). -/
structure StopTransactionRequest where
  transactionId : Int
  meterStop : Int
  timestamp : Int
deriving Repr, DecidableEq

/-- A sampled value inside a MeterValues report.  `value` is the result of
`strconv.ParseFloat(sample.Value, 64)` on the wire string (`none` models a
parse error). -/
structure SampledValue where
  measurand : String
  value : Option ℚ
deriving Repr, DecidableEq

/-- One `meterValue` entry of a MeterValues report. -/
structure MeterValueEntry where
  timestamp : Int
  sampledValue : List SampledValue
deriving Repr, DecidableEq

/-- Embeds `core.MeterValuesRequest`. -/
structure MeterValuesRequest where
  transactionId : Option Int
  meterValue : List MeterValueEntry
deriving Repr, DecidableEq

/-! ### Shared pieces of the handlers -/

/-- The charger upsert of `OnBootNotification` /
`handleBootNotificationRequest`:
`INSERT INTO chargers (identity, name, model, vendor, firmware, last_seen)
 VALUES (?, ?, ?, ?, ?, ?) ON CONFLICT(identity) DO UPDATE SET
 model = excluded.model, vendor = excluded.vendor,
 firmware = excluded.firmware, last_seen = excluded.last_seen`
(the `name` column is only written on insert). -/
def upsertCharger (db : DB) (now : Int) (identity model vendor firmware : String) : DB :=
  if db.chargers.any (fun c => c.identity = identity) then
    { db with chargers := db.chargers.map fun c =>
        if c.identity = identity then
          { c with model := model, vendor := vendor, firmware := firmware, lastSeen := now }
        else c }
  else
    { db with
        chargers := db.chargers ++
          [{ id := db.nextChargerId, identity := identity, name := identity,
             model := model, vendor := vendor, firmware := firmware,
             lastSeen := now, totalEnergyWh := none }],
        nextChargerId := db.nextChargerId + 1 }

/-- Embeds `UPDATE chargers SET last_seen = ? WHERE identity = ?`. -/
def touchLastSeen (db : DB) (now : Int) (identity : String) : DB :=
  { db with chargers := db.chargers.map fun c =>
      if c.identity = identity then { c with lastSeen := now } else c }

/-- The unit heuristic of `OnMeterValues` (`server.go`):
`// Convert to Wh if needed (assume kWh if value > 1000)`. -/
def convertWh (value : ℚ) : ℚ :=
  if 1000 < value then value * 1000 else value

/-- The conditional total-energy write of `OnMeterValues` applied to a single
`chargers` row:
`UPDATE chargers SET total_energy_wh = ?
 WHERE id = ? AND (? >= total_energy_wh OR total_energy_wh IS NULL)`. -/
def monoSetTotal (chargerID : Int) (w : Int) (c : Charger) : Charger :=
  if c.id = chargerID then
    match c.totalEnergyWh with
    | none => { c with totalEnergyWh := some w }
    | some t => if t ≤ w then { c with totalEnergyWh := some w } else c
  else c

/-- The unconditional total-energy write of the variant meter handler:
`UPDATE chargers SET total_energy_wh = ? WHERE id = ?`. -/
def overwriteTotal (chargerID : Int) (w : Int) (c : Charger) : Charger :=
  if c.id = chargerID then { c with totalEnergyWh := some w } else c

/-- The transaction close of `OnStopTransaction` applied to a single row:
`UPDATE transactions SET stop_ts = ?, stop_meter_wh = ?,
 energy_wh = MAX(0, ? - start_meter_wh) WHERE tx_id = ?`. -/
def closeTxRow (txId meterStop stopTs : Int) (t : Transaction) : Transaction :=
  if t.txId = txId then
    { t with stopTs := some stopTs, stopMeterWh := some meterStop,
             energyWh := some (max 0 (meterStop - t.startMeterWh)) }
  else t

/-! ### Typed handlers (`server.go`, first copy) -/

/-- Embeds `OnBootNotification`: upserts the charger; on upsert failure
(environmental storage error, injected as `upsertFails`) answers Rejected
with interval 300 and the current time, otherwise Accepted with the same
interval and time. -/
def OnBootNotification (upsertFails : Bool) (db : DB) (now : Int)
    (chargePointId : String) (req : BootNotificationRequest) :
    BootNotificationConfirmation × DB :=
  if upsertFails then
    (⟨.rejected, now, 300⟩, db)
  else
    (⟨.accepted, now, 300⟩,
     upsertCharger db now chargePointId req.chargePointModel
       req.chargePointVendor req.firmwareVersion)

/-- The transaction-identifier generator of `OnStartTransaction` /
`handleStartTransactionRequest`: `txID := int(time.Now().Unix())`. -/
def genTxId (now : Int) : Int := now

/-- Embeds `OnStartTransaction`: resolves the charger by identity (Invalid when
unknown), generates `txID := int(time.Now().Unix())` and inserts an open
transaction row. -/
def OnStartTransaction (db : DB) (now : Int) (chargePointId : String)
    (req : StartTransactionRequest) : StartTransactionConfirmation × DB :=
  match findCharger db chargePointId with
  | none => (⟨0, .invalid⟩, db)
  | some c =>
      let txID := genTxId now
      (⟨txID, .accepted⟩,
       { db with
           transactions := db.transactions ++
             [{ id := db.nextTxRowId, chargerId := c.id, txId := txID,
                startTs := req.timestamp, startMeterWh := req.meterStart,
                stopTs := none, stopMeterWh := none, energyWh := none }],
           nextTxRowId := db.nextTxRowId + 1 })

/-- Embeds `OnStopTransaction`: closes every row whose `tx_id` matches, storing
`energy_wh = MAX(0, meterStop - start_meter_wh)`, and always answers
Accepted (a missing transaction leaves the store unchanged). -/
def OnStopTransaction (db : DB) (req : StopTransactionRequest) :
    AuthorizationStatus × DB :=
  (.accepted,
   { db with transactions :=
       db.transactions.map (closeTxRow req.transactionId req.meterStop req.timestamp) })

/-- One sample of the `OnMeterValues` inner loop: for the cumulative energy
register, parse the value, apply the kWh heuristic, insert a `meter_values`
row and run the conditional total-energy update. -/
def onMeterValuesSample (transactionID chargerID : Int) (ts : Int)
    (db : DB) (sample : SampledValue) : DB :=
  if sample.measurand = "Energy.Active.Import.Register" then
    match sample.value with
    | none => db
    | some value =>
        let valueWh := convertWh value
        let row : MeterRow :=
          { transactionId := transactionID, ts := ts,
            measurand := sample.measurand, value := valueWh }
        let db1 := { db with meterValues := db.meterValues ++ [row] }
        { db1 with chargers := db1.chargers.map (monoSetTotal chargerID (int64of valueWh)) }
  else db

/-- One `meterValue` entry of the `OnMeterValues` outer loop. -/
def onMeterValuesEntry (transactionID chargerID : Int)
    (db : DB) (mv : MeterValueEntry) : DB :=
  mv.sampledValue.foldl (onMeterValuesSample transactionID chargerID mv.timestamp) db

/-- Embeds `OnMeterValues` (`server.go`, first copy): the handler first logs
`*request.TransactionId`, so a `nil` transaction id dereferences a nil
pointer (`none` outcome = runtime panic); otherwise it resolves the
transaction row and its charger, then processes every sampled value. -/
def OnMeterValues (db : DB) (req : MeterValuesRequest) : Option DB :=
  match req.transactionId with
  | none => none
  | some txv =>
      match findTransaction db txv with
      | none => some db
      | some tx =>
          some (req.meterValue.foldl (onMeterValuesEntry tx.id tx.chargerId) db)

/-! ### Raw-payload handlers (the hand-rolled WebSocket path) -/

/-- Decimal digits to a natural number (`none` on a non-digit or empty). -/
def decDigits (l : List Char) : Option Nat :=
  if l.isEmpty then none
  else l.foldl
    (fun acc c =>
      match acc with
      | none => none
      | some n => if c.isDigit then some (10 * n + (c.toNat - 48)) else none)
    (some 0)

/-- Embeds `strconv.ParseFloat(s, 64)`, modelled exactly for plain decimal literals
(optional sign, digits, optional fractional part); exponent and special
forms are modelled as parse failures, and the float64 result is idealised
as the exact rational. -/
def parseFloat (s : String) : Option ℚ :=
  let signed : Bool × List Char :=
    match s.data with
    | '-' :: rest => (true, rest)
    | l => (false, l)
  let mag : Option ℚ :=
    match signed.2.splitOn '.' with
    | [ip] => (decDigits ip).map (fun n => (n : ℚ))
    | [ip, fp] =>
        match decDigits ip, decDigits fp with
        | some n, some f => some ((n : ℚ) + (f : ℚ) / ((10 : ℚ) ^ fp.length))
        | _, _ => none
    | _ => none
  mag.map (fun q => if signed.1 then -q else q)

/-- Embeds `time.Parse(time.RFC3339, s)`, modelled as accepting the rendered
clock values (digit strings); anything else models an unparseable
timestamp. -/
def parseTime (s : String) : Option Int := (decDigits s.data).map Int.ofNat

/-- The `{"idTagInfo": {"status": "Invalid"}}` response object. -/
def invalidResp : JVal := .jobj [("idTagInfo", .jobj [("status", .jstr "Invalid")])]

/-- The `{"idTagInfo": {"status": "Accepted"}}` response object. -/
def acceptedResp : JVal := .jobj [("idTagInfo", .jobj [("status", .jstr "Accepted")])]

/-- Embeds `handleBootNotificationRequest`: upserts the charger from the raw
payload; an invalid payload or a failed upsert answers `{"status":
"Rejected"}` (and nothing else), success answers Accepted with
`currentTime` and `interval` 300. -/
def handleBootNotificationRequest (upsertFails : Bool) (db : DB) (now : Int)
    (chargePointId : String) (payload : JVal) : JVal × DB :=
  match payload.asObj with
  | none => (.jobj [("status", .jstr "Rejected")], db)
  | some m =>
      let model := jgetStr m "chargePointModel"
      let vendor := jgetStr m "chargePointVendor"
      let firmware := jgetStr m "firmwareVersion"
      if upsertFails then
        (.jobj [("status", .jstr "Rejected")], db)
      else
        (.jobj [("status", .jstr "Accepted"),
                ("currentTime", .jstr (timeStr now)),
                ("interval", .jnum 300)],
         upsertCharger db now chargePointId model vendor firmware)

/-- Embeds `handleStatusNotificationRequest` (`server.go`): updates `last_seen`
and acknowledges with an empty object. -/
def handleStatusNotificationRequest (db : DB) (now : Int)
    (chargePointId : String) (_payload : JVal) : JVal × DB :=
  (.jobj [], touchLastSeen db now chargePointId)

/-- One sampled value of `handleMeterValuesRequest` (`server.go`, the
variant with the kWh heuristic and the conditional update): looks for the
cumulative register, parses the value, converts, resolves the charger by
identity and applies the monotonic total-energy update. -/
def mvSampleCond (chargePointId : String) (db : DB) (sv : JVal) : DB :=
  match sv.asObj with
  | none => db
  | some m =>
      if jgetStr m "measurand" = "Energy.Active.Import.Register" then
        match parseFloat (jgetStr m "value") with
        | none => db
        | some value =>
            let valueWh := convertWh value
            match findCharger db chargePointId with
            | none => db
            | some c =>
                { db with chargers :=
                    db.chargers.map (monoSetTotal c.id (int64of valueWh)) }
      else db

/-- One `meterValue` entry of `handleMeterValuesRequest` (`server.go`):
an unparseable timestamp or a missing `sampledValue` array skips the
entry. -/
def mvEntryCond (chargePointId : String) (db : DB) (mv : JVal) : DB :=
  match mv.asObj with
  | none => db
  | some m =>
      match parseTime (jgetStr m "timestamp") with
      | none => db
      | some _ =>
          match (jget m "sampledValue").bind JVal.asArr with
          | none => db
          | some svs => svs.foldl (mvSampleCond chargePointId) db

/-- Embeds `handleMeterValuesRequest` (`server.go`, conditional-update variant):
processes every meter reading of the payload and acknowledges with an
empty object. -/
def handleMeterValuesRequest (db : DB) (chargePointId : String)
    (payload : JVal) : JVal × DB :=
  match payload.asObj with
  | none => (.jobj [], db)
  | some m =>
      match (jget m "meterValue").bind JVal.asArr with
      | none => (.jobj [], db)
      | some mvs =>
          if mvs.isEmpty then (.jobj [], db)
          else (.jobj [], mvs.foldl (mvEntryCond chargePointId) db)

/-- One sampled value of the variant `handleMeterValuesRequest` shipped with
the connection-map server (`// Use the value as-is since it's already in
Wh`): no unit conversion, and the total-energy write is the unconditional
`UPDATE chargers SET total_energy_wh = ? WHERE id = ?`. -/
def mvSampleOverwrite (chargePointId : String) (db : DB) (sv : JVal) : DB :=
  match sv.asObj with
  | none => db
  | some m =>
      if jgetStr m "measurand" = "Energy.Active.Import.Register" then
        match parseFloat (jgetStr m "value") with
        | none => db
        | some value =>
            let valueWh := value
            match findCharger db chargePointId with
            | none => db
            | some c =>
                { db with chargers :=
                    db.chargers.map (overwriteTotal c.id (int64of valueWh)) }
      else db

/-- One `meterValue` entry of the overwrite-variant meter handler. -/
def mvEntryOverwrite (chargePointId : String) (db : DB) (mv : JVal) : DB :=
  match mv.asObj with
  | none => db
  | some m =>
      match parseTime (jgetStr m "timestamp") with
      | none => db
      | some _ =>
          match (jget m "sampledValue").bind JVal.asArr with
          | none => db
          | some svs => svs.foldl (mvSampleOverwrite chargePointId) db

/-- The variant `handleMeterValuesRequest` of the connection-map server:
first touches `last_seen`, then overwrites the stored total with each
reported register value unconditionally. -/
def handleMeterValuesRequestOverwrite (db : DB) (now : Int)
    (chargePointId : String) (payload : JVal) : JVal × DB :=
  let db0 := touchLastSeen db now chargePointId
  match payload.asObj with
  | none => (.jobj [], db0)
  | some m =>
      match (jget m "meterValue").bind JVal.asArr with
      | none => (.jobj [], db0)
      | some mvs =>
          if mvs.isEmpty then (.jobj [], db0)
          else (.jobj [], mvs.foldl (mvEntryOverwrite chargePointId) db0)

/-- The stub `handleMeterValuesRequest` of the first `server.go` copy
(`// TODO: Implement proper meter values processing`). -/
def handleMeterValuesRequestStub (db : DB) (_chargePointId : String)
    (_payload : JVal) : JVal × DB :=
  (.jobj [], db)

/-- Embeds `handleStartTransactionRequest`: resolves the charger by identity
(Invalid when unknown), generates the timestamp transaction id and inserts
the open transaction row. -/
def handleStartTransactionRequest (db : DB) (now : Int)
    (chargePointId : String) (payload : JVal) : JVal × DB :=
  match payload.asObj with
  | none => (invalidResp, db)
  | some m =>
      let meterStart := jgetNum m "meterStart"
      match findCharger db chargePointId with
      | none => (invalidResp, db)
      | some c =>
          let txID := genTxId now
          (.jobj [("transactionId", .jnum (txID : ℚ)),
                  ("idTagInfo", .jobj [("status", .jstr "Accepted")])],
           { db with
               transactions := db.transactions ++
                 [{ id := db.nextTxRowId, chargerId := c.id, txId := txID,
                    startTs := now, startMeterWh := int64of meterStart,
                    stopTs := none, stopMeterWh := none, energyWh := none }],
               nextTxRowId := db.nextTxRowId + 1 })

/-- Embeds `handleStopTransactionRequest`: closes every matching row with
`energy_wh = MAX(0, meterStop - start_meter_wh)` and always answers
Accepted. -/
def handleStopTransactionRequest (db : DB) (now : Int)
    (_chargePointId : String) (payload : JVal) : JVal × DB :=
  match payload.asObj with
  | none => (invalidResp, db)
  | some m =>
      let transactionId := jgetNum m "transactionId"
      let meterStop := jgetNum m "meterStop"
      (acceptedResp,
       { db with transactions :=
           db.transactions.map (closeTxRow (int64of transactionId) (int64of meterStop) now) })

/-- Embeds `handleAuthorizeRequest`: accepts every idTag. -/
def handleAuthorizeRequest (db : DB) (_chargePointId : String)
    (_payload : JVal) : JVal × DB :=
  (acceptedResp, db)

/-- Embeds `handleHeartbeatRequest`: touches `last_seen` and answers with the
current server time. -/
def handleHeartbeatRequest (db : DB) (now : Int) (chargePointId : String)
    (_payload : JVal) : JVal × DB :=
  (.jobj [("currentTime", .jstr (timeStr now))], touchLastSeen db now chargePointId)

/-! ### The action dispatcher and the envelope codec -/

/-- A frame written back to the station: the marshalled
`[3, uniqueId, payload]` CALLRESULT or
`[4, uniqueId, code, description, details]` CALLERROR array. -/
inductive OutFrame where
  | callResult (messageId : String) (payload : JVal)
  | callError (messageId : String) (errorCode errorDescription errorDetails : String)
deriving Repr

/-- The generic `NotImplemented` CALLERROR of the dispatcher's default
branch: `[4, messageId, "NotImplemented", "Action not implemented", "{}"]`. -/
def notImplementedError (messageId : String) : OutFrame :=
  .callError messageId "NotImplemented" "Action not implemented" "\x7b\x7d"

/-- Embeds `handleOCPPRequest`, first `server.go` copy: six recognised actions,
no `Heartbeat` case; an unknown action is answered with the
`NotImplemented` CALLERROR. -/
def handleOCPPRequestNoHB (upsertFails : Bool) (db : DB) (now : Int)
    (chargePointId messageId action : String) (payload : JVal) : OutFrame × DB :=
  if action = "BootNotification" then
    let (r, db2) := handleBootNotificationRequest upsertFails db now chargePointId payload
    (.callResult messageId r, db2)
  else if action = "StatusNotification" then
    let (r, db2) := handleStatusNotificationRequest db now chargePointId payload
    (.callResult messageId r, db2)
  else if action = "MeterValues" then
    let (r, db2) := handleMeterValuesRequestStub db chargePointId payload
    (.callResult messageId r, db2)
  else if action = "StartTransaction" then
    let (r, db2) := handleStartTransactionRequest db now chargePointId payload
    (.callResult messageId r, db2)
  else if action = "StopTransaction" then
    let (r, db2) := handleStopTransactionRequest db now chargePointId payload
    (.callResult messageId r, db2)
  else if action = "Authorize" then
    let (r, db2) := handleAuthorizeRequest db chargePointId payload
    (.callResult messageId r, db2)
  else
    (notImplementedError messageId, db)

/-- Embeds `handleOCPPRequest`, Heartbeat-aware variant (second `server.go` copy
and the connection-map server): seven recognised actions; an unknown
action is answered with the `NotImplemented` CALLERROR. -/
def handleOCPPRequest (upsertFails : Bool) (db : DB) (now : Int)
    (chargePointId messageId action : String) (payload : JVal) : OutFrame × DB :=
  if action = "BootNotification" then
    let (r, db2) := handleBootNotificationRequest upsertFails db now chargePointId payload
    (.callResult messageId r, db2)
  else if action = "StatusNotification" then
    let (r, db2) := handleStatusNotificationRequest db now chargePointId payload
    (.callResult messageId r, db2)
  else if action = "MeterValues" then
    let (r, db2) := handleMeterValuesRequest db chargePointId payload
    (.callResult messageId r, db2)
  else if action = "StartTransaction" then
    let (r, db2) := handleStartTransactionRequest db now chargePointId payload
    (.callResult messageId r, db2)
  else if action = "StopTransaction" then
    let (r, db2) := handleStopTransactionRequest db now chargePointId payload
    (.callResult messageId r, db2)
  else if action = "Authorize" then
    let (r, db2) := handleAuthorizeRequest db chargePointId payload
    (.callResult messageId r, db2)
  else if action = "Heartbeat" then
    let (r, db2) := handleHeartbeatRequest db now chargePointId payload
    (.callResult messageId r, db2)
  else
    (notImplementedError messageId, db)

/-- Outcome of `processOCPPMessage` as observed by the read loop:
a marshalled response, a silent `nil, nil`, a returned error (the loop
logs it and continues), or a Go runtime panic. -/
inductive ProcResult where
  | reply (frame : OutFrame)
  | silent
  | errex (msg : String)
  | panicked
deriving Repr

/-- Embeds `processOCPPMessage` on a frame that unmarshalled to a JSON array:
length check (`< 3` fails), the three leading type assertions, then the
switch on `int(messageType)`.  In the CALL case the code indexes
`ocppMessage[3]` unconditionally, so a three-element CALL is an
out-of-range panic.  Dispatch goes through the Heartbeat-aware
dispatcher. -/
def processOCPPMessage (upsertFails : Bool) (db : DB) (now : Int)
    (chargePointId : String) (msg : List JVal) : ProcResult × DB :=
  if msg.length < 3 then (.errex "invalid OCPP message format", db)
  else
    match (msg[0]?).bind JVal.asNum with
    | none => (.errex "invalid message type", db)
    | some mt =>
        match (msg[1]?).bind JVal.asStr with
        | none => (.errex "invalid message ID", db)
        | some messageId =>
            match (msg[2]?).bind JVal.asStr with
            | none => (.errex "invalid action", db)
            | some action =>
                match int64of mt with
                | 2 =>
                    match msg[3]? with
                    | none => (.panicked, db)
                    | some payload =>
                        let (f, db2) :=
                          handleOCPPRequest upsertFails db now chargePointId
                            messageId action payload
                        (.reply f, db2)
                | 3 => (.silent, db)
                | 4 => (.silent, db)
                | _ => (.errex "unknown message type", db)

/-! ### The connection registry of the connection-map server -/

/-- A live connection handle (`*websocket.Conn`), identified by instance. -/
abbrev ConnId := Nat

/-- The Go map `connections map[string]*websocket.Conn`, as an association
list with at most one binding per key. -/
abbrev Registry := List (String × ConnId)

/-- Map write `s.connections[chargerID] = conn` (performed when a
connection is accepted): overwrites any previous binding for the key. -/
def regSet (r : Registry) (identity : String) (c : ConnId) : Registry :=
  if (List.any r fun p => p.1 = identity) then
    List.map (fun p => if p.1 = identity then (identity, c) else p) r
  else r ++ [(identity, c)]

/-- Map delete `delete(s.connections, chargerID)` (performed when a read
loop exits): keyed by identity only, not by connection instance. -/
def regDelete (r : Registry) (identity : String) : Registry :=
  List.filter (fun p => ¬(p.1 = identity)) r

/-- Map lookup `conn, exists := s.connections[chargePointId]`. -/
def regGet (r : Registry) (identity : String) : Option ConnId :=
  (List.find? (fun p => p.1 = identity) r).map Prod.snd

/-- Outcome of an outbound push. -/
inductive SendOutcome where
  | sent (c : ConnId)
  | noConnection
deriving Repr, DecidableEq

/-- Embeds `sendTriggerMessage`: looks the identity up in the connection map and
writes the outbound CALL on the registered connection; with no entry the
push is a logged no-op failure. -/
def sendTriggerMessage (r : Registry) (chargePointId : String) : SendOutcome :=
  match regGet r chargePointId with
  | none => .noConnection
  | some c => .sent c

/-! ### Shared concrete fixtures -/

/-- An empty store. -/
def dbEmpty : DB := ⟨[], [], [], 1, 1⟩

/-- A registered charger, as left by a first BootNotification. -/
def chA : Charger :=
  ⟨1, "CP-1", "CP-1", "ModelX", "VendorY", "fw-1.0", 0, none⟩

/-- A store holding just the charger `chA`. -/
def dbOneCharger : DB := ⟨[chA], [], [], 2, 1⟩

/-- An open transaction with a start meter reading of 5000 Wh. -/
def txOpen5000 : Transaction :=
  ⟨1, 1, 77, 10, 5000, none, none, none⟩

/-- A store holding `chA` and the open transaction `txOpen5000`. -/
def dbOpenTx : DB := ⟨[chA], [txOpen5000], [], 2, 2⟩

/-! ### C2: StopTransaction clamps energy and always accepts -/

/-- C2: for every StopTransaction request, the handler answers Accepted in
every case (also when no transaction with the given identifier exists), and
every row whose `tx_id` matches gets its stop timestamp and stop meter
reading set with `energy_wh = max 0 (meterStop - start_meter_wh)`, which is
never negative.  The raw-payload handler behaves the same on its truncated
numeric fields. -/
theorem C2_stopTransaction_clamped_energy_always_accepted
    (db : DB) (req : StopTransactionRequest) :
    (OnStopTransaction db req).1 = .accepted ∧
    (OnStopTransaction db req).2.transactions =
      db.transactions.map (closeTxRow req.transactionId req.meterStop req.timestamp) ∧
    (∀ t ∈ db.transactions, t.txId = req.transactionId →
      (closeTxRow req.transactionId req.meterStop req.timestamp t).stopTs =
          some req.timestamp ∧
      (closeTxRow req.transactionId req.meterStop req.timestamp t).stopMeterWh =
          some req.meterStop ∧
      (closeTxRow req.transactionId req.meterStop req.timestamp t).energyWh =
          some (max 0 (req.meterStop - t.startMeterWh)) ∧
      ∀ e, (closeTxRow req.transactionId req.meterStop req.timestamp t).energyWh =
          some e → 0 ≤ e) ∧
    (∀ now cp m, handleStopTransactionRequest db now cp (.jobj m) =
      (acceptedResp,
       { db with transactions := db.transactions.map (closeTxRow (int64of (jgetNum m "transactionId")) (int64of (jgetNum m "meterStop")) now) })) := by
  refine ⟨rfl, rfl, ?_, fun now cp m => rfl⟩
  intro t _ht hmatch
  simp only [closeTxRow, hmatch, if_pos rfl]
  refine ⟨rfl, rfl, rfl, ?_⟩
  intro e he
  have : e = max 0 (req.meterStop - t.startMeterWh) := by
    simpa using he.symm
  simp [this]

/-- Witness for C2 at the spec's example: start = 5000 Wh, stop = 4800 Wh
yields a stored energy of 0, not −200, and the response is Accepted even
though the meter went backwards. -/
theorem C2_witness :
    (OnStopTransaction dbOpenTx ⟨77, 4800, 50⟩).1 = .accepted ∧
    (closeTxRow 77 4800 50 txOpen5000).energyWh = some 0 := by
  obtain ⟨h1, _h2, h3, _h4⟩ :=
    C2_stopTransaction_clamped_energy_always_accepted dbOpenTx ⟨77, 4800, 50⟩
  refine ⟨h1, ?_⟩
  obtain ⟨_, _, he, _⟩ := h3 txOpen5000 (by decide) (by decide)
  rw [he]
  decide

/-! ### C6: StartTransaction for an unknown charger changes nothing -/

/-- C6: a StartTransaction whose charge-point identity has no `chargers`
row answers with the Invalid authorization outcome and leaves the store —
in particular the `transactions` table — unchanged; the raw-payload
handler does the same. -/
theorem C6_startTransaction_unknown_charger_invalid_no_insert
    (db : DB) (now : Int) (cp : String) (req : StartTransactionRequest)
    (payload : JVal) (h : findCharger db cp = none) :
    (OnStartTransaction db now cp req).1.status = .invalid ∧
    (OnStartTransaction db now cp req).2 = db ∧
    handleStartTransactionRequest db now cp payload = (invalidResp, db) := by
  refine ⟨?_, ?_, ?_⟩
  · simp [OnStartTransaction, h]
  · simp [OnStartTransaction, h]
  · cases payload <;> simp [handleStartTransactionRequest, h, JVal.asObj]

/-- Witness for C6: the empty store knows no charger `CP-9`, so a
StartTransaction from it is Invalid and inserts nothing. -/
theorem C6_witness :
    findCharger dbEmpty "CP-9" = none ∧
    (OnStartTransaction dbEmpty 100 "CP-9" ⟨"tag", 0, 100⟩).1.status = .invalid ∧
    (OnStartTransaction dbEmpty 100 "CP-9" ⟨"tag", 0, 100⟩).2 = dbEmpty := by
  have h : findCharger dbEmpty "CP-9" = none := by decide
  obtain ⟨h1, h2, _⟩ :=
    C6_startTransaction_unknown_charger_invalid_no_insert dbEmpty 100 "CP-9"
      ⟨"tag", 0, 100⟩ .jnull h
  exact ⟨h, h1, h2⟩

/-! ### C5: transaction identifiers are second-granularity timestamps -/

/-- C5 (code bug): `txID := int(time.Now().Unix())` makes two
StartTransaction operations processed within the same clock second
generate the same transaction identifier, so the store ends up with two
simultaneously open transactions for the same charger carrying equal
`tx_id` — the schema has no UNIQUE constraint to stop the second insert.
Evaluated here at two starts in the second 1700000000. -/
theorem C5_same_second_starts_collide :
    (OnStartTransaction dbOneCharger 1700000000 "CP-1" ⟨"tagA", 0, 1700000000⟩).1.status
      = .accepted ∧
    ((OnStartTransaction
        (OnStartTransaction dbOneCharger 1700000000 "CP-1" ⟨"tagA", 0, 1700000000⟩).2
        1700000000 "CP-1" ⟨"tagB", 5, 1700000000⟩).1.status = .accepted) ∧
    (OnStartTransaction dbOneCharger 1700000000 "CP-1" ⟨"tagA", 0, 1700000000⟩).1.transactionId
      = (OnStartTransaction
          (OnStartTransaction dbOneCharger 1700000000 "CP-1" ⟨"tagA", 0, 1700000000⟩).2
          1700000000 "CP-1" ⟨"tagB", 5, 1700000000⟩).1.transactionId ∧
    (∃ t1 ∈ (OnStartTransaction
        (OnStartTransaction dbOneCharger 1700000000 "CP-1" ⟨"tagA", 0, 1700000000⟩).2
        1700000000 "CP-1" ⟨"tagB", 5, 1700000000⟩).2.transactions,
     ∃ t2 ∈ (OnStartTransaction
        (OnStartTransaction dbOneCharger 1700000000 "CP-1" ⟨"tagA", 0, 1700000000⟩).2
        1700000000 "CP-1" ⟨"tagB", 5, 1700000000⟩).2.transactions,
        t1.id ≠ t2.id ∧ t1.chargerId = t2.chargerId ∧ t1.txId = t2.txId ∧
        t1.stopTs = none ∧ t2.stopTs = none) := by
  decide

/-! ### C8: a late unregister clobbers the fresh registration -/

/-- C8 (code bug): registering `conn 1` and then `conn 2` under the same
identity leaves `conn 2` reachable, but the `delete` run when the first
connection's read loop exits is keyed by identity only, so it removes the
newer registration and a subsequent outbound push finds no connection. -/
theorem C8_identity_keyed_delete_removes_fresh_registration :
    regGet (regSet (regSet ([] : Registry) "CP-1" 1) "CP-1" 2) "CP-1" = some 2 ∧
    regGet (regDelete (regSet (regSet ([] : Registry) "CP-1" 1) "CP-1" 2) "CP-1") "CP-1"
      = none ∧
    sendTriggerMessage
      (regDelete (regSet (regSet ([] : Registry) "CP-1" 1) "CP-1" 2) "CP-1") "CP-1"
      = .noConnection := by
  decide

/-! ### C3: a three-element CALL panics instead of being dropped -/

/-- C3 (code bug): a frame that parses as a three-element JSON array whose
first element is `2` and whose second element is a string passes every
explicit check of `processOCPPMessage`, and the CALL branch then indexes
`ocppMessage[3]` out of range: a Go runtime panic, not a dropped frame.
Frames failing the earlier checks (here a two-element array) are indeed
returned as errors, which the read loop logs before continuing. -/
theorem C3_three_element_call_panics :
    processOCPPMessage false dbEmpty 0 "CP-1"
      [.jnum 2, .jstr "42", .jstr "Heartbeat"] = (.panicked, dbEmpty) ∧
    processOCPPMessage false dbEmpty 0 "CP-1"
      [.jnum 2, .jstr "42"] = (.errex "invalid OCPP message format", dbEmpty) := by
  exact ⟨rfl, rfl⟩

/-! ### C4: BootNotification rejection payloads -/

/-- C4 (counterexample): when the upsert fails, the raw-payload
BootNotification handler answers only `{"status": "Rejected"}` — the
response carries neither the 300-second heartbeat interval nor the current
server time, contrary to the claim. -/
theorem C4_counterexample :
    (handleBootNotificationRequest true dbEmpty 0 "CP-1"
        (.jobj [("chargePointModel", .jstr "X"), ("chargePointVendor", .jstr "Y")])).1
      = .jobj [("status", .jstr "Rejected")] ∧
    ((handleBootNotificationRequest true dbEmpty 0 "CP-1"
        (.jobj [("chargePointModel", .jstr "X"), ("chargePointVendor", .jstr "Y")])).1.asObj.bind
      (fun m => jget m "interval")) = none ∧
    ((handleBootNotificationRequest true dbEmpty 0 "CP-1"
        (.jobj [("chargePointModel", .jstr "X"), ("chargePointVendor", .jstr "Y")])).1.asObj.bind
      (fun m => jget m "currentTime")) = none := by
  exact ⟨rfl, rfl, rfl⟩

/-- C4 (amended): the typed `OnBootNotification` answers Rejected on a
failed upsert and Accepted otherwise, and both confirmations carry the
300-second interval and the current server time; the raw-payload handler
carries interval and time only in the Accepted response, while its
Rejected response is the bare `{"status": "Rejected"}` object. -/
theorem C4_boot_interval_and_time
    (upsertFails : Bool) (db : DB) (now : Int) (cp : String)
    (req : BootNotificationRequest) (payload : JVal) :
    (OnBootNotification upsertFails db now cp req).1.interval = 300 ∧
    (OnBootNotification upsertFails db now cp req).1.currentTime = now ∧
    (OnBootNotification upsertFails db now cp req).1.status =
      (if upsertFails then .rejected else .accepted) ∧
    (handleBootNotificationRequest true db now cp payload).1 =
      .jobj [("status", .jstr "Rejected")] ∧
    (∀ m, payload = .jobj m →
      (handleBootNotificationRequest false db now cp payload).1 =
        .jobj [("status", .jstr "Accepted"), ("currentTime", .jstr (timeStr now)),
               ("interval", .jnum 300)]) := by
  refine ⟨?_, ?_, ?_, ?_, ?_⟩
  · cases upsertFails <;> rfl
  · cases upsertFails <;> rfl
  · cases upsertFails <;> rfl
  · cases payload <;> rfl
  · intro m hm
    subst hm
    rfl

/-- Witness for C4 at a concrete Accepted case: the raw handler's success
response carries `currentTime` and `interval` 300. -/
theorem C4_witness :
    (handleBootNotificationRequest false dbEmpty 7 "CP-1"
        (.jobj [("chargePointModel", .jstr "X")])).1 =
      .jobj [("status", .jstr "Accepted"), ("currentTime", .jstr (timeStr 7)),
             ("interval", .jnum 300)] := by
  exact (C4_boot_interval_and_time false dbEmpty 7 "CP-1" ⟨"X", "", ""⟩
      (.jobj [("chargePointModel", .jstr "X")])).2.2.2.2
    [("chargePointModel", .jstr "X")] rfl

/-! ### C7: unknown actions get the NotImplemented CALLERROR -/

/-- The actions recognised by the first `server.go` dispatcher. -/
def recognizedActionsNoHB : List String :=
  ["BootNotification", "StatusNotification", "MeterValues", "StartTransaction",
   "StopTransaction", "Authorize"]

/-- The actions recognised by the Heartbeat-aware dispatcher. -/
def recognizedActions : List String :=
  recognizedActionsNoHB ++ ["Heartbeat"]

/-- C7: a decoded CALL whose action is not recognised is answered with a
CALLERROR carrying the original uniqueId and the code `NotImplemented`
with the generic description, in both dispatcher variants, and never with
a CALLRESULT. -/
theorem C7_unknown_action_not_implemented
    (upsertFails : Bool) (db : DB) (now : Int) (cp messageId action : String)
    (payload : JVal) :
    (action ∉ recognizedActionsNoHB →
      handleOCPPRequestNoHB upsertFails db now cp messageId action payload =
        (notImplementedError messageId, db)) ∧
    (action ∉ recognizedActions →
      (handleOCPPRequest upsertFails db now cp messageId action payload =
        (notImplementedError messageId, db)) ∧
      ∀ p, (handleOCPPRequest upsertFails db now cp messageId action payload).1 ≠
        .callResult messageId p) := by
  constructor
  · intro h
    simp only [recognizedActionsNoHB, List.mem_cons, List.not_mem_nil, or_false] at h
    push_neg at h
    obtain ⟨h1, h2, h3, h4, h5, h6⟩ := h
    simp [handleOCPPRequestNoHB, h1, h2, h3, h4, h5, h6]
  · intro h
    simp only [recognizedActions, recognizedActionsNoHB, List.mem_append,
      List.mem_cons, List.not_mem_nil, or_false, not_or] at h
    obtain ⟨⟨h1, h2, h3, h4, h5, h6⟩, h7⟩ := h
    constructor
    · simp [handleOCPPRequest, h1, h2, h3, h4, h5, h6, h7]
    · intro p
      simp [handleOCPPRequest, h1, h2, h3, h4, h5, h6, h7, notImplementedError]

/-- Witness for C7: the action `TriggerMessage` is not recognised and is
answered with the NotImplemented CALLERROR carrying the original
uniqueId. -/
theorem C7_witness :
    "TriggerMessage" ∉ recognizedActions ∧
    handleOCPPRequest false dbEmpty 0 "CP-1" "id7" "TriggerMessage" .jnull =
      (notImplementedError "id7", dbEmpty) := by
  refine ⟨by decide, ?_⟩
  exact ((C7_unknown_action_not_implemented false dbEmpty 0 "CP-1" "id7"
    "TriggerMessage" .jnull).2 (by decide)).1

/-! ### C9: Heartbeat handling -/

/-- C9 (counterexample): the first `server.go` dispatcher has no
`Heartbeat` case, so a Heartbeat CALL is answered with the NotImplemented
CALLERROR there. -/
theorem C9_counterexample :
    (handleOCPPRequestNoHB false dbOneCharger 0 "CP-1" "42" "Heartbeat" .jnull).1 =
      .callError "42" "NotImplemented" "Action not implemented" "\x7b\x7d" := by
  exact rfl

/-- C9 (amended): in the Heartbeat-aware dispatcher a Heartbeat CALL
updates the charger's last-seen timestamp, is answered with a CALLRESULT
whose payload carries the current server time, and is never answered with
a CALLERROR; the dispatcher of the first `server.go` copy lacks the
Heartbeat case and answers NotImplemented instead. -/
theorem C9_heartbeat_recognized
    (upsertFails : Bool) (db : DB) (now : Int) (cp messageId : String)
    (payload : JVal) :
    (handleOCPPRequest upsertFails db now cp messageId "Heartbeat" payload).1 =
      .callResult messageId (.jobj [("currentTime", .jstr (timeStr now))]) ∧
    (handleOCPPRequest upsertFails db now cp messageId "Heartbeat" payload).2 =
      touchLastSeen db now cp ∧
    (∀ c ∈ (handleOCPPRequest upsertFails db now cp messageId "Heartbeat" payload).2.chargers,
      c.identity = cp → c.lastSeen = now) ∧
    (∀ code d dd,
      (handleOCPPRequest upsertFails db now cp messageId "Heartbeat" payload).1 ≠
        .callError messageId code d dd) := by
  refine ⟨rfl, rfl, ?_, ?_⟩
  · have h2 : (handleOCPPRequest upsertFails db now cp messageId "Heartbeat" payload).2 =
        touchLastSeen db now cp := rfl
    rw [h2]
    intro c hc hid
    simp only [touchLastSeen, List.mem_map] at hc
    obtain ⟨c0, _hc0, rfl⟩ := hc
    by_cases h : c0.identity = cp
    · simp [h]
    · simp only [if_neg h] at hid ⊢
      exact absurd hid h
  · intro code d dd hcontra
    exact OutFrame.noConfusion hcontra

/-- Witness for C9: a concrete Heartbeat from `CP-1` gets the current-time
CALLRESULT and its charger row's `last_seen` is advanced to the clock
value. -/
theorem C9_witness :
    (handleOCPPRequest false dbOneCharger 99 "CP-1" "m1" "Heartbeat" .jnull).1 =
      .callResult "m1" (.jobj [("currentTime", .jstr (timeStr 99))]) ∧
    ({ chA with lastSeen := 99 } : Charger).lastSeen = 99 := by
  have h := C9_heartbeat_recognized false dbOneCharger 99 "CP-1" "m1" .jnull
  refine ⟨h.1, ?_⟩
  exact h.2.2.1 { chA with lastSeen := 99 } (by decide) (by decide)

/-! ### C1 and C10: the total-energy reconciliation pipeline -/

/-- The evolution of a single charger's stored total under one conditional
write of `OnMeterValues` (the row-level effect of `monoSetTotal` on the
matching row). -/
def totalStep (cur : Option Int) (w : Int) : Option Int :=
  match cur with
  | none => some w
  | some t => if t ≤ w then some w else some t

/-- The stored-total projection in the words of the specification: a
reported value at least the stored total (or arriving with no stored
total) replaces it, a lower value leaves it unchanged — i.e. the stored
total becomes the running maximum of the readings and the initial total. -/
def specStoredTotal (cur : Option Int) (ws : List Int) : Option Int :=
  ws.foldl
    (fun acc w =>
      match acc with
      | none => some w
      | some t => some (max t w))
    cur

/-- The successfully parsed cumulative-register readings of a list of
sampled values, in order. -/
def sampleVals (ss : List SampledValue) : List ℚ :=
  ss.filterMap
    (fun s => if s.measurand = "Energy.Active.Import.Register" then s.value else none)

/-- The register readings carried by one `meterValue` entry. -/
def entryVals (mv : MeterValueEntry) : List ℚ := sampleVals mv.sampledValue

/-- The register readings carried by a whole MeterValues request, in
order. -/
def reqVals (req : MeterValuesRequest) : List ℚ :=
  (req.meterValue.map entryVals).flatten

theorem totalStep_eq_max (cur : Option Int) (w : Int) :
    totalStep cur w =
      (match cur with
       | none => some w
       | some t => some (max t w)) := by
  cases cur with
  | none => rfl
  | some t =>
      simp only [totalStep]
      by_cases h : t ≤ w
      · simp [h, max_eq_right h]
      · simp [h, max_eq_left (le_of_not_le h)]

/-- The code's conditional-replace fold computes exactly the spec's
running maximum. -/
theorem foldl_totalStep_eq_spec (ws : List Int) :
    ∀ cur : Option Int, ws.foldl totalStep cur = specStoredTotal cur ws := by
  induction ws with
  | nil => intro cur; rfl
  | cons w ws ih =>
      intro cur
      rw [List.foldl_cons, totalStep_eq_max, ih]
      rfl

/-- The spec's running maximum never decreases below the initial stored
total. -/
theorem specStoredTotal_mono (ws : List Int) :
    ∀ t : Int, ∃ m, specStoredTotal (some t) ws = some m ∧ t ≤ m := by
  induction ws with
  | nil => intro t; exact ⟨t, rfl, le_refl t⟩
  | cons w ws ih =>
      intro t
      obtain ⟨m, hm, hle⟩ := ih (max t w)
      exact ⟨m, hm, le_trans (le_max_left t w) hle⟩

theorem monoSetTotal_matching (cid w : Int) (c : Charger) (h : c.id = cid) :
    monoSetTotal cid w c =
      { c with totalEnergyWh := totalStep c.totalEnergyWh w } := by
  subst h
  cases htot : c.totalEnergyWh with
  | none => simp [monoSetTotal, totalStep, htot]
  | some t =>
      by_cases hle : t ≤ w
      · simp [monoSetTotal, totalStep, htot, hle]
      · simp only [monoSetTotal, totalStep, htot, if_neg hle, if_pos rfl]
        rw [← htot]
        exact rfl

/-- Folding the sample loop of `OnMeterValues` over a store holding a
single charger row leaves the transactions and counters untouched, appends
only meter rows, and evolves the charger's stored total by `totalStep`
over the converted readings. -/
theorem sampleFold_total (tid cid ts : Int) (ss : List SampledValue) :
    ∀ (c : Charger) (txs : List Transaction) (mvs : List MeterRow) (n1 n2 : Int),
      c.id = cid →
      ∃ (c2 : Charger) (mvs2 : List MeterRow),
        ss.foldl (onMeterValuesSample tid cid ts) ⟨[c], txs, mvs, n1, n2⟩ =
          ⟨[c2], txs, mvs2, n1, n2⟩ ∧
        c2.id = c.id ∧ c2.identity = c.identity ∧
        c2.totalEnergyWh =
          (sampleVals ss).foldl
            (fun cur v => totalStep cur (int64of (convertWh v))) c.totalEnergyWh := by
  induction ss with
  | nil =>
      intro c txs mvs n1 n2 _hc
      exact ⟨c, mvs, rfl, rfl, rfl, rfl⟩
  | cons s ss ih =>
      intro c txs mvs n1 n2 hc
      by_cases hm : s.measurand = "Energy.Active.Import.Register"
      · cases hv : s.value with
        | none =>
            have hstep : onMeterValuesSample tid cid ts ⟨[c], txs, mvs, n1, n2⟩ s =
                ⟨[c], txs, mvs, n1, n2⟩ := by
              simp [onMeterValuesSample, hm, hv]
            have hsv : sampleVals (s :: ss) = sampleVals ss := by
              simp [sampleVals, hm, hv]
            rw [List.foldl_cons, hstep, hsv]
            exact ih c txs mvs n1 n2 hc
        | some v =>
            have hstep : onMeterValuesSample tid cid ts ⟨[c], txs, mvs, n1, n2⟩ s =
                ⟨[monoSetTotal cid (int64of (convertWh v)) c], txs,
                 mvs ++ [⟨tid, ts, s.measurand, convertWh v⟩], n1, n2⟩ := by
              simp [onMeterValuesSample, hm, hv]
            have hsv : sampleVals (s :: ss) = v :: sampleVals ss := by
              simp [sampleVals, hm, hv]
            rw [List.foldl_cons, hstep]
            rw [monoSetTotal_matching cid (int64of (convertWh v)) c hc]
            obtain ⟨c2, mvs2, heq, hid, hident, htot⟩ :=
              ih { c with totalEnergyWh := totalStep c.totalEnergyWh (int64of (convertWh v)) }
                txs (mvs ++ [⟨tid, ts, s.measurand, convertWh v⟩]) n1 n2 hc
            refine ⟨c2, mvs2, heq, hid, hident, ?_⟩
            rw [htot, hsv, List.foldl_cons]
      · have hstep : onMeterValuesSample tid cid ts ⟨[c], txs, mvs, n1, n2⟩ s =
            ⟨[c], txs, mvs, n1, n2⟩ := by
          simp [onMeterValuesSample, hm]
        have hsv : sampleVals (s :: ss) = sampleVals ss := by
          simp [sampleVals, hm]
        rw [List.foldl_cons, hstep, hsv]
        exact ih c txs mvs n1 n2 hc

/-- Folding the entry loop of `OnMeterValues` over a store holding a
single charger row: the charger's stored total evolves by `totalStep` over
all converted readings of all entries. -/
theorem entryFold_total (tid cid : Int) (mvl : List MeterValueEntry) :
    ∀ (c : Charger) (txs : List Transaction) (mvs : List MeterRow) (n1 n2 : Int),
      c.id = cid →
      ∃ (c2 : Charger) (mvs2 : List MeterRow),
        mvl.foldl (onMeterValuesEntry tid cid) ⟨[c], txs, mvs, n1, n2⟩ =
          ⟨[c2], txs, mvs2, n1, n2⟩ ∧
        c2.id = c.id ∧ c2.identity = c.identity ∧
        c2.totalEnergyWh =
          ((mvl.map entryVals).flatten).foldl
            (fun cur v => totalStep cur (int64of (convertWh v))) c.totalEnergyWh := by
  induction mvl with
  | nil =>
      intro c txs mvs n1 n2 _hc
      exact ⟨c, mvs, rfl, rfl, rfl, rfl⟩
  | cons mv mvl ih =>
      intro c txs mvs n1 n2 hc
      rw [List.foldl_cons]
      obtain ⟨c1, mvs1, heq1, hid1, hident1, htot1⟩ :=
        sampleFold_total tid cid mv.timestamp mv.sampledValue c txs mvs n1 n2 hc
      have hentry : onMeterValuesEntry tid cid ⟨[c], txs, mvs, n1, n2⟩ mv =
          ⟨[c1], txs, mvs1, n1, n2⟩ := heq1
      rw [hentry]
      obtain ⟨c2, mvs2, heq2, hid2, hident2, htot2⟩ :=
        ih c1 txs mvs1 n1 n2 (by rw [hid1]; exact hc)
      refine ⟨c2, mvs2, heq2, by rw [hid2, hid1], by rw [hident2, hident1], ?_⟩
      rw [htot2, htot1]
      simp [entryVals, List.foldl_append, List.map_cons, List.flatten_cons]

/-- An open transaction with protocol identifier 7 for charger `chA`. -/
def txC1 : Transaction := ⟨1, 1, 7, 0, 0, none, none, none⟩

/-- A store holding `chA` (no stored total yet) and the open transaction
`txC1`. -/
def dbC1 : DB := ⟨[chA], [txC1], [], 2, 2⟩

/-- A typed MeterValues request for transaction 7 carrying one
cumulative-register sample per entry. -/
def reqC1 (vs : List ℚ) : MeterValuesRequest :=
  ⟨some 7, vs.map (fun v => ⟨0, [⟨"Energy.Active.Import.Register", some v⟩]⟩)⟩

/-- A raw MeterValues payload carrying one cumulative-register sample per
entry, with the given wire value strings. -/
def mvPayload (vals : List String) : JVal :=
  .jobj [("meterValue", .jarr (vals.map fun v =>
    .jobj [("timestamp", .jstr "0"),
           ("sampledValue", .jarr
             [.jobj [("measurand", .jstr "Energy.Active.Import.Register"),
                     ("value", .jstr v)]])]))]

/-- C1 (counterexample): on the claim's own example sequence 1000, 1500,
900, 1600 the code does not leave the stored totals 1000, 1500, 1500,
1600.  `OnMeterValues` first applies the kWh heuristic, so the readings
above 1000 are stored multiplied by 1000: after 1000, 1500 the stored
total is 1500000, and after the full sequence it is 1600000, not 1600.
The variant meter handler of the connection-map server overwrites
unconditionally, so after 1000, 1500, 900 its stored total is 900, not
1500 — the stored total is not monotone there. -/
theorem C1_counterexample :
    ((OnMeterValues dbC1 (reqC1 [1000, 1500])).map
        (fun d => (findCharger d "CP-1").map Charger.totalEnergyWh)) =
      some (some (some 1500000)) ∧
    ((OnMeterValues dbC1 (reqC1 [1000, 1500, 900, 1600])).map
        (fun d => (findCharger d "CP-1").map Charger.totalEnergyWh)) =
      some (some (some 1600000)) ∧
    (1600000 : Int) ≠ 1600 ∧
    ((findCharger
        (handleMeterValuesRequestOverwrite dbC1 3 "CP-1"
          (mvPayload ["1000", "1500", "900"])).2 "CP-1").map Charger.totalEnergyWh) =
      some (some 900) := by
  refine ⟨?_, ?_, by decide, ?_⟩
  · norm_num [OnMeterValues, findTransaction, dbC1, txC1, chA, reqC1,
      onMeterValuesEntry, onMeterValuesSample, monoSetTotal, convertWh, int64of,
      findCharger]
  · norm_num [OnMeterValues, findTransaction, dbC1, txC1, chA, reqC1,
      onMeterValuesEntry, onMeterValuesSample, monoSetTotal, convertWh, int64of,
      findCharger]
  · decide

/-- C1 (amended): for a charger with a single open transaction,
`OnMeterValues` leaves the stored total equal to the running maximum of
the initial stored total and the unit-converted readings (each parsed
reading `v` enters as `int64of (convertWh v)`, i.e. multiplied by 1000
when above 1000): the conditional-update fold of the code equals the
spec-side running-maximum projection, and the stored total never drops
below the initial stored total. -/
theorem C1_storedTotal_is_runningMax_of_converted
    (c : Charger) (t : Transaction) (mvs : List MeterRow) (n1 n2 : Int)
    (req : MeterValuesRequest)
    (hc : c.id = t.chargerId) (hreq : req.transactionId = some t.txId) :
    ∃ (db2 : DB) (c2 : Charger),
      OnMeterValues ⟨[c], [t], mvs, n1, n2⟩ req = some db2 ∧
      db2.chargers = [c2] ∧ c2.identity = c.identity ∧
      db2.transactions = [t] ∧
      c2.totalEnergyWh =
        specStoredTotal c.totalEnergyWh
          ((reqVals req).map fun v => int64of (convertWh v)) ∧
      (∀ t0, c.totalEnergyWh = some t0 →
        ∃ m, c2.totalEnergyWh = some m ∧ t0 ≤ m) := by
  have hfind : findTransaction ⟨[c], [t], mvs, n1, n2⟩ t.txId = some t := by
    simp [findTransaction]
  obtain ⟨c2, mvs2, heq, hid, hident, htot⟩ :=
    entryFold_total t.id t.chargerId req.meterValue c [t] mvs n1 n2 hc
  have hrun : OnMeterValues ⟨[c], [t], mvs, n1, n2⟩ req =
      some ⟨[c2], [t], mvs2, n1, n2⟩ := by
    simp only [OnMeterValues, hreq, hfind]
    exact congrArg some heq
  have htot2 : c2.totalEnergyWh =
      specStoredTotal c.totalEnergyWh
        ((reqVals req).map fun v => int64of (convertWh v)) := by
    rw [htot, reqVals, ← foldl_totalStep_eq_spec, List.foldl_map]
  refine ⟨⟨[c2], [t], mvs2, n1, n2⟩, c2, hrun, rfl, hident, rfl, htot2, ?_⟩
  intro t0 h0
  obtain ⟨m, hm, hle⟩ :=
    specStoredTotal_mono ((reqVals req).map fun v => int64of (convertWh v)) t0
  exact ⟨m, by rw [htot2, h0, hm], hle⟩

/-- Witness for C1 (amended) at the example sequence: the hypotheses hold
for charger `chA` and transaction `txC1`, and the conclusion follows by
the amended theorem. -/
theorem C1_witness :
    chA.id = txC1.chargerId ∧
    (reqC1 [1000, 1500, 900, 1600]).transactionId = some txC1.txId ∧
    (∃ (db2 : DB) (c2 : Charger),
      OnMeterValues ⟨[chA], [txC1], [], 2, 2⟩ (reqC1 [1000, 1500, 900, 1600]) =
        some db2 ∧
      db2.chargers = [c2] ∧ c2.identity = chA.identity ∧
      db2.transactions = [txC1] ∧
      c2.totalEnergyWh =
        specStoredTotal chA.totalEnergyWh
          ((reqVals (reqC1 [1000, 1500, 900, 1600])).map fun v =>
            int64of (convertWh v)) ∧
      (∀ t0, chA.totalEnergyWh = some t0 →
        ∃ m, c2.totalEnergyWh = some m ∧ t0 ≤ m)) :=
  ⟨by decide, by decide,
   C1_storedTotal_is_runningMax_of_converted chA txC1 [] 2 2
     (reqC1 [1000, 1500, 900, 1600]) (by decide) (by decide)⟩

/-! ### C10: the kWh-to-Wh heuristic -/

/-- C10: in the meter-values handlers a cumulative-register reading with
parsed value `v` is inserted into `meter_values` and fed to the
total-energy update as `v * 1000` when `v` is strictly greater than 1000,
and unchanged otherwise — shown through the typed `OnMeterValues` (row
insert and conditional update) and through the raw conditional-update
handler's sample step. -/
theorem C10_kwh_heuristic
    (c : Charger) (t : Transaction) (mvs : List MeterRow) (n1 n2 ts : Int)
    (v : ℚ) (hc : c.id = t.chargerId) :
    OnMeterValues ⟨[c], [t], mvs, n1, n2⟩
        ⟨some t.txId, [⟨ts, [⟨"Energy.Active.Import.Register", some v⟩]⟩]⟩ =
      some ⟨[monoSetTotal t.chargerId (int64of (if 1000 < v then v * 1000 else v)) c],
            [t],
            mvs ++ [⟨t.id, ts, "Energy.Active.Import.Register",
                     if 1000 < v then v * 1000 else v⟩],
            n1, n2⟩ ∧
    (∀ s : String, parseFloat s = some v →
      mvSampleCond c.identity ⟨[c], [t], mvs, n1, n2⟩
          (.jobj [("measurand", .jstr "Energy.Active.Import.Register"),
                  ("value", .jstr s)]) =
        ⟨[monoSetTotal c.id (int64of (if 1000 < v then v * 1000 else v)) c],
         [t], mvs, n1, n2⟩) := by
  constructor
  · have hfind : findTransaction ⟨[c], [t], mvs, n1, n2⟩ t.txId = some t := by
      simp [findTransaction]
    simp [OnMeterValues, hfind, onMeterValuesEntry, onMeterValuesSample, convertWh]
  · intro s hs
    simp [mvSampleCond, jgetStr, jget, JVal.asObj, JVal.asStr, hs, findCharger,
      convertWh, hc]

/-- Witness for C10 at `v = 1500` on the wire string `"1500"`: the value
fed to the conditional update is 1500000 Wh. -/
theorem C10_witness :
    chA.id = txC1.chargerId ∧
    parseFloat "1500" = some 1500 ∧
    mvSampleCond "CP-1" ⟨[chA], [txC1], [], 2, 2⟩
        (.jobj [("measurand", .jstr "Energy.Active.Import.Register"),
                ("value", .jstr "1500")]) =
      ⟨[monoSetTotal 1 1500000 chA], [txC1], [], 2, 2⟩ := by
  refine ⟨by decide, by decide, ?_⟩
  have h := (C10_kwh_heuristic chA txC1 [] 2 2 0 1500 (by decide)).2 "1500" (by decide)
  have harg : int64of (if (1000 : ℚ) < 1500 then 1500 * 1000 else 1500) = 1500000 := by
    norm_num [int64of]
  have hident : chA.identity = "CP-1" := by decide
  rw [← hident]
  rw [h, show chA.id = 1 from rfl, harg]

end OCPPPM
